import Mathlib

/-!
Shallow embedding of the core of clc (src/clc.c): the telnet protocol
state machine (telnet_on_recv, telnet_do_subreq, telnet_send_esc,
telnet_do_zmp), the websock message handler (websock_on_recv), the ANSI
terminal interpreter (on_text_ansi, on_term_esc) and the line-edit
buffer (editbuf ops).

Modelling conventions:
- a byte is a Nat with value 0..255 (the C code compares bytes after an
  explicit cast to unsigned char, except where noted);
- the C size_t counters are Nats; where the C code can actually wrap a
  size_t (the cursor decrement in editbuf_del) the arithmetic is taken
  mod 2^64 explicitly;
- side effects are reified as events: bytes handed to the terminal
  renderer, option acknowledgements handed to do_send, resize-report
  callback invocations, and ZMP dispatch calls (invocations of
  telnet_do_zmp after the checks in telnet_do_subreq);
- the bit flags of the C structs (telnet.flags bits TELNET_FLAG_ZMP and
  TELNET_FLAG_NAWS, terminal.flags bit TERM_FLAG_ECHO) are modelled as
  individual Bool fields.
-/

/- telnet protocol constants (arpa/telnet.h values used by clc.c) -/

def IAC : Nat := 255
def DONT : Nat := 254
def DO : Nat := 253
def WONT : Nat := 252
def WILL : Nat := 251
def SB : Nat := 250
def SE : Nat := 240
def TELOPT_ECHO : Nat := 1
def TELOPT_NAWS : Nat := 31
def TELNET_MAX_SUB : Nat := 1024 * 8
def TELNET_MAX_ZMP_ARGS : Nat := 32
def EDITBUF_MAX : Nat := 1024
def WEBSOCK_MAX_MSG : Nat := 2048
def TERM_MAX_ESC : Nat := 16
def TERM_COLOR_DEFAULT : Nat := 9

/- C character classification (ASCII, as clc.c feeds it plain bytes) -/

def isalpha (b : Nat) : Bool := (65 ≤ b && b ≤ 90) || (97 ≤ b && b ≤ 122)

def isdigit (b : Nat) : Bool := 48 ≤ b && b ≤ 57

/- telnet protocol state machine -/

inductive telnet_state_t where
  | TELNET_TEXT | TELNET_IAC | TELNET_DO | TELNET_DONT
  | TELNET_WILL | TELNET_WONT | TELNET_SUB | TELNET_SUBIAC
  deriving DecidableEq

open telnet_state_t

/-- Observable actions of the telnet engine while consuming inbound
bytes: `display` is a byte handed to on_text_ansi, `diag` is the
diagnostic placeholder ("<IAC:%d>" rendered from the byte, handed to
on_text_plain), `sendOpt` is a transmitted IAC/type/option triple
(telnet_send_opt), `resize` is an invocation of the resize-report
callback protocol.on_resize, and `dispatch` is an invocation of
telnet_do_zmp with the given payload (the subnegotiation buffer minus
its leading 93 byte). -/
inductive Event where
  | display (b : Nat)
  | diag (b : Nat)
  | sendOpt (t o : Nat)
  | resize (w h : Nat)
  | dispatch (payload : List Nat)
  deriving DecidableEq

/-- struct TELNET of clc.c.  `sub_buf` is the filled part of the C
array sub_buf[0..sub_size), so its length plays the role of sub_size.
`zmp` and `naws` are the two bits of telnet.flags; `echo` is the
TERM_FLAG_ECHO bit of terminal.flags, which telnet_on_recv mutates on
WILL/WONT ECHO. -/
structure TELNET where
  state : telnet_state_t
  sub_buf : List Nat
  zmp : Bool
  naws : Bool
  echo : Bool
  deriving DecidableEq

/-- Initial state at session start: memset(&telnet, 0, ...) gives
TELNET_TEXT (enum value 0), empty buffer, flags 0; terminal.flags
defaults to TERM_FLAG_ECHO set. -/
def telnetInit : TELNET := ⟨TELNET_TEXT, [], false, false, true⟩

/-- telnet_do_subreq of clc.c: called once a subnegotiation completed;
validates and forwards ZMP frames.  It only reads the state; the
events are the telnet_do_zmp invocation, when it happens. -/
def telnet_do_subreq (s : TELNET) : List Event :=
  if s.sub_buf.length = 0 then []
  else if s.sub_buf.headD 0 = 93 then
    if s.zmp = false then []
    else if s.sub_buf.length < 3 then []
    else if isalpha (s.sub_buf.getD 1 0) = false then []
    else if s.sub_buf.getD (s.sub_buf.length - 1) 0 ≠ 0 then []
    else [Event.dispatch (s.sub_buf.drop 1)]
  else []

/-- One iteration of the per-byte switch in telnet_on_recv.  `w` and
`h` are the values htons(COLS), htons(LINES) that the surrounding
program passes to protocol.on_resize.  Note two faithful details of
the C code: the IAC-IAC branch of state TELNET_IAC displays the byte
but does not reset the state, and the IAC branch of TELNET_SUBIAC
appends the byte without returning to TELNET_SUB. -/
def telnet_step (w h : Nat) (s : TELNET) (b : Nat) : TELNET × List Event :=
  match s.state with
  | TELNET_TEXT =>
      if b = IAC then ({ s with state := TELNET_IAC }, [])
      else (s, [Event.display b])
  | TELNET_IAC =>
      if b = IAC then (s, [Event.display b])
      else if b = DO then ({ s with state := TELNET_DO }, [])
      else if b = DONT then ({ s with state := TELNET_DONT }, [])
      else if b = WILL then ({ s with state := TELNET_WILL }, [])
      else if b = WONT then ({ s with state := TELNET_WONT }, [])
      else if b = SB then ({ s with state := TELNET_SUB, sub_buf := [] }, [])
      else ({ s with state := TELNET_TEXT }, [Event.diag b])
  | TELNET_DO =>
      if b = TELOPT_NAWS then
        ({ s with state := TELNET_TEXT, naws := true },
          [Event.sendOpt WILL TELOPT_NAWS, Event.resize w h])
      else ({ s with state := TELNET_TEXT }, [])
  | TELNET_DONT => ({ s with state := TELNET_TEXT }, [])
  | TELNET_WILL =>
      if b = TELOPT_ECHO then
        ({ s with state := TELNET_TEXT, echo := false }, [Event.sendOpt DO TELOPT_ECHO])
      else if b = 93 then
        ({ s with state := TELNET_TEXT, zmp := true }, [Event.sendOpt DO 93])
      else ({ s with state := TELNET_TEXT }, [])
  | TELNET_WONT =>
      if b = TELOPT_ECHO then
        ({ s with state := TELNET_TEXT, echo := true }, [Event.sendOpt DONT TELOPT_ECHO])
      else ({ s with state := TELNET_TEXT }, [])
  | TELNET_SUB =>
      if b = IAC then ({ s with state := TELNET_SUBIAC }, [])
      else if s.sub_buf.length = TELNET_MAX_SUB then ({ s with state := TELNET_TEXT }, [])
      else ({ s with sub_buf := s.sub_buf ++ [b] }, [])
  | TELNET_SUBIAC =>
      if b = IAC then
        if s.sub_buf.length = TELNET_MAX_SUB then ({ s with state := TELNET_TEXT }, [])
        else ({ s with sub_buf := s.sub_buf ++ [b] }, [])
      else if b = SE then
        ({ s with state := TELNET_TEXT }, telnet_do_subreq { s with state := TELNET_TEXT })
      else ({ s with state := TELNET_TEXT }, [])

/-- telnet_on_recv of clc.c: the per-byte loop over one inbound
buffer, threading the persistent struct TELNET and collecting the
events in order. -/
def telnet_recv (w h : Nat) : TELNET → List Nat → TELNET × List Event
  | s, [] => (s, [])
  | s, b :: rest =>
      let r := telnet_step w h s b
      let r2 := telnet_recv w h r.1 rest
      (r2.1, r.2 ++ r2.2)

/-- A sequence of separate calls to telnet_on_recv, one per chunk, as
the transport delivers arbitrarily fragmented reads. -/
def telnet_recv_chunks (w h : Nat) : TELNET → List (List Nat) → TELNET × List Event
  | s, [] => (s, [])
  | s, c :: rest =>
      let r := telnet_recv w h s c
      let r2 := telnet_recv_chunks w h r.1 rest
      (r2.1, r.2 ++ r2.2)

/- outbound escaping -/

/-- The loop body of telnet_send_esc: indices i (scan position) and
last (start of the pending unescaped run); on finding an IAC it sends
bytes[last..i), then IAC IAC, and resumes at i+1; at the end it sends
the remaining run.  The fuel argument is bytes.length - i, which the C
for-loop guarantees. -/
def telnet_send_esc_go (bytes : List Nat) : Nat → Nat → Nat → List Nat
  | 0, i, last => (bytes.drop last).take (i - last)
  | fuel + 1, i, last =>
      if i < bytes.length then
        if bytes.getD i 0 = IAC then
          (bytes.drop last).take (i - last) ++ IAC :: IAC :: telnet_send_esc_go bytes fuel (i + 1) (i + 1)
        else telnet_send_esc_go bytes fuel (i + 1) last
      else (bytes.drop last).take (i - last)

/-- telnet_send_esc of clc.c: the exact byte sequence handed to
do_send when transmitting a payload with every literal IAC doubled. -/
def telnet_send_esc (bytes : List Nat) : List Nat :=
  telnet_send_esc_go bytes bytes.length 0 0

/- ZMP argument collection (telnet_do_zmp) -/

/-- strlen starting at offset c inside the payload: the number of
bytes before the next NUL.  Only meaningful for c < bytes.length with
a NUL at or after c, which the caller's validation guarantees. -/
def strlenFrom (bytes : List Nat) (c : Nat) : Nat :=
  ((bytes.drop c).takeWhile (fun b => b ≠ 0)).length

/-- The argument-collection loop of telnet_do_zmp:
for (i = 0; i < MAX_ARGS && c != bytes + len + 1; ++i)
  { args[i] = c; c += strlen(c) + 1; }
The result is the list of collected argument start offsets, paired
with a flag telling whether the loop performed a read at or beyond
the end of the payload (args[i] set to an offset ≥ len, so that the
subsequent strlen reads bytes[len] and onward; the model cannot follow
the read further, so it stops there and reports it).  The fuel is
TELNET_MAX_ZMP_ARGS - i. -/
def zmp_args_go (bytes : List Nat) : Nat → Nat → List Nat × Bool
  | 0, _ => ([], false)
  | fuel + 1, c =>
      if c = bytes.length + 1 then ([], false)
      else if bytes.length ≤ c then ([c], true)
      else
        let r := zmp_args_go bytes fuel (c + strlenFrom bytes c + 1)
        (c :: r.1, r.2)

/-- The argument collection performed by telnet_do_zmp on its payload
(the subnegotiation buffer minus the leading 93 byte). -/
def telnet_do_zmp_args (bytes : List Nat) : List Nat × Bool :=
  zmp_args_go bytes TELNET_MAX_ZMP_ARGS 0

/- terminal renderer (on_text_ansi / on_term_esc) -/

inductive term_state_t where
  | TERM_ASCII | TERM_ESC | TERM_ESCRUN
  deriving DecidableEq

open term_state_t

/-- Observable actions of the terminal interpreter: `paint` is a byte
written to win_main (waddch), `setColor` is a wattron color-pair
change, `clear` is a wclear of the whole display region. -/
inductive TermEvent where
  | paint (b : Nat)
  | setColor (c : Nat)
  | clear
  deriving DecidableEq

/-- struct TERMINAL of clc.c, without the echo flag (which the
renderer logic never reads; it lives on the TELNET/WEBSOCK side of the
model).  esc_buf is the full 16-cell int array. -/
structure TERMINAL where
  state : term_state_t
  esc_buf : List Nat
  esc_cnt : Nat
  color : Nat
  deriving DecidableEq

def termInit : TERMINAL := ⟨TERM_ASCII, List.replicate TERM_MAX_ESC 0, 0, TERM_COLOR_DEFAULT⟩

/-- on_term_esc of clc.c: perform the final command byte of an escape
sequence.  'm' folds over the first esc_cnt parameters updating the
color; 'J' clears the whole screen when esc_buf[0] == 2; everything
else is consumed and ignored. -/
def on_term_esc (t : TERMINAL) (cmd : Nat) : TERMINAL × List TermEvent :=
  if cmd = 109 then
    let r := (List.range t.esc_cnt).foldl
      (fun (acc : Nat × List TermEvent) i =>
        let v := t.esc_buf.getD i 0
        if v = 0 then (TERM_COLOR_DEFAULT, acc.2 ++ [TermEvent.setColor TERM_COLOR_DEFAULT])
        else if 31 ≤ v ∧ v ≤ 37 then (v - 30, acc.2 ++ [TermEvent.setColor (v - 30)])
        else acc)
      (t.color, [])
    ({ t with color := r.1 }, r.2)
  else if cmd = 74 then
    if t.esc_buf.getD 0 0 = 2 then (t, [TermEvent.clear]) else (t, [])
  else (t, [])

/-- One iteration of the per-byte switch in on_text_ansi. -/
def on_text_ansi_step (t : TERMINAL) (b : Nat) : TERMINAL × List TermEvent :=
  match t.state with
  | TERM_ASCII =>
      if b = 27 then ({ t with state := TERM_ESC }, [])
      else if b = 13 then (t, [])
      else (t, [TermEvent.paint b])
  | TERM_ESC =>
      if b = 91 then
        ({ t with state := TERM_ESCRUN, esc_cnt := 0, esc_buf := t.esc_buf.set 0 0 }, [])
      else ({ t with state := TERM_ASCII }, [])
  | TERM_ESCRUN =>
      if isdigit b then
        let cnt := if t.esc_cnt = 0 then 1 else t.esc_cnt
        ({ t with esc_cnt := cnt,
                  esc_buf := t.esc_buf.set (cnt - 1) (t.esc_buf.getD (cnt - 1) 0 * 10 + (b - 48)) }, [])
      else if b = 59 then
        if t.esc_cnt < TERM_MAX_ESC then
          ({ t with esc_cnt := t.esc_cnt + 1, esc_buf := t.esc_buf.set t.esc_cnt 0 }, [])
        else (t, [])
      else
        let r := on_term_esc t b
        ({ r.1 with state := TERM_ASCII }, r.2)

/-- on_text_ansi of clc.c over a byte sequence. -/
def on_text_ansi (t : TERMINAL) : List Nat → TERMINAL × List TermEvent
  | [] => (t, [])
  | b :: rest =>
      let r := on_text_ansi_step t b
      let r2 := on_text_ansi r.1 rest
      (r2.1, r.2 ++ r2.2)

/- edit buffer -/

/-- The size_t modulus: the only place clc.c can actually wrap a
size_t during editing is the cursor decrement in editbuf_del. -/
def TWO64 : Nat := 2 ^ 64

/-- struct EDITBUF of clc.c: buf is the full 1024-cell char array,
size and pos are the size_t bookkeeping fields. -/
structure EDITBUF where
  buf : List Nat
  size : Nat
  pos : Nat
  deriving DecidableEq

def editbufInit : EDITBUF := ⟨List.replicate EDITBUF_MAX 0, 0, 0⟩

/-- Overwrite the front cells of an array with fresh bytes, leaving
the rest untouched (what a bounded snprintf into the array does). -/
def overlay (old fresh : List Nat) : List Nat := fresh ++ old.drop fresh.length

/-- editbuf_set of clc.c: snprintf(buf, EDITBUF_MAX, "%s", text)
stores at most EDITBUF_MAX-1 bytes plus a NUL, but pos and size are
then assigned strlen(text), the length of the original text. -/
def editbuf_set (text : List Nat) (e : EDITBUF) : EDITBUF :=
  { buf := overlay e.buf (text.take (EDITBUF_MAX - 1) ++ [0]),
    size := text.length,
    pos := text.length }

/-- editbuf_insert of clc.c.  The memmove shifts buf[pos..size) up by
one; out-of-invariant states (pos > size) would be C undefined
behaviour and are modelled with truncated subtraction. -/
def editbuf_insert (ch : Nat) (e : EDITBUF) : EDITBUF :=
  if e.size = EDITBUF_MAX then e
  else if e.pos = e.size then
    { e with buf := e.buf.set e.pos ch, pos := e.pos + 1, size := e.size + 1 }
  else
    { e with
        buf := ((e.buf.take (e.pos + 1) ++ (e.buf.drop e.pos).take (e.size - e.pos)
                  ++ e.buf.drop (e.pos + 1 + (e.size - e.pos)))).set e.pos ch,
        pos := e.pos + 1,
        size := e.size + 1 }

/-- editbuf_bs of clc.c. -/
def editbuf_bs (e : EDITBUF) : EDITBUF :=
  if e.pos = 0 then e
  else if e.pos = e.size then
    { e with pos := e.size - 1, size := e.size - 1 }
  else
    { e with
        buf := e.buf.take (e.pos - 1) ++ (e.buf.drop e.pos).take (e.size - e.pos)
                ++ e.buf.drop (e.pos - 1 + (e.size - e.pos)),
        pos := e.pos - 1,
        size := e.size - 1 }

/-- editbuf_del of clc.c.  In the pos == size - 1 branch the C code
executes --editbuf.pos and --editbuf.size on size_t fields; the
decrements are modelled mod 2^64 because pos can be 0 there (buffer
with one character, cursor at 0), in which case the C cursor wraps to
2^64 - 1. -/
def editbuf_del (e : EDITBUF) : EDITBUF :=
  if e.pos = e.size then e
  else if e.pos = (e.size + TWO64 - 1) % TWO64 then
    { e with pos := (e.pos + TWO64 - 1) % TWO64, size := (e.size + TWO64 - 1) % TWO64 }
  else
    { e with
        buf := e.buf.take e.pos ++ (e.buf.drop (e.pos + 1)).take (e.size - e.pos - 1)
                ++ e.buf.drop (e.pos + (e.size - e.pos - 1)),
        size := e.size - 1 }

/-- editbuf_home of clc.c. -/
def editbuf_home (e : EDITBUF) : EDITBUF := { e with pos := 0 }

/-- editbuf_end of clc.c. -/
def editbuf_end (e : EDITBUF) : EDITBUF := { e with pos := e.size }

/-- editbuf_curleft of clc.c. -/
def editbuf_curleft (e : EDITBUF) : EDITBUF :=
  if 0 < e.pos then { e with pos := e.pos - 1 } else e

/-- editbuf_curright of clc.c. -/
def editbuf_curright (e : EDITBUF) : EDITBUF :=
  if e.pos < e.size then { e with pos := e.pos + 1 } else e

/- websock protocol -/

/-- Observable actions of the websock handler: `text` is a quoted-text
payload handed to on_text_plain, `clearScreen` is a wclear of
win_main, `setBanner` is the banner replacement (with autobanner
turned off). -/
inductive WSEvent where
  | text (bs : List Nat)
  | clearScreen
  | setBanner (bs : List Nat)
  deriving DecidableEq

/-- struct WEBSOCK of clc.c plus the two pieces of global state its
message processing mutates: the TERM_FLAG_ECHO bit of terminal.flags
and the autobanner flag / banner buffer. -/
structure WEBSOCK where
  msg : List Nat
  echo : Bool
  autobanner : Bool
  banner : List Nat
  deriving DecidableEq

def websockInit : WEBSOCK := ⟨[], true, true, []⟩

/-- The message-complete branch of websock_on_recv (reached on a NUL
byte): switch on msg[0] (which is 0 when the buffer is empty, because
the reset writes msg[0] = 0), act, then reset the buffer.  For the
banner, snprintf("%.*s", msg_size-1, &msg[1]) keeps at most 1023
bytes.  For 'p', a two-byte message with second byte '1' clears the
echo flag (password mode on) and with second byte '0' sets it. -/
def websock_process (s : WEBSOCK) : WEBSOCK × List WSEvent :=
  let head := s.msg.headD 0
  let r : WEBSOCK × List WSEvent :=
    if head = 34 then (s, [WSEvent.text (s.msg.drop 1)])
    else if head = 62 then
      ({ s with autobanner := false, banner := (s.msg.drop 1).take 1023 },
        [WSEvent.setBanner ((s.msg.drop 1).take 1023)])
    else if head = 67 then (s, [WSEvent.clearScreen])
    else if head = 112 then
      if s.msg.length = 2 ∧ s.msg.getD 1 0 = 49 then ({ s with echo := false }, [])
      else if s.msg.length = 2 ∧ s.msg.getD 1 0 = 48 then ({ s with echo := true }, [])
      else (s, [])
    else (s, [])
  ({ r.1 with msg := [] }, r.2)

/-- websock_on_recv of clc.c: accumulate bytes until a NUL, dropping
bytes that would overflow the 2048-byte message buffer, and process
each completed message. -/
def websock_on_recv (s : WEBSOCK) : List Nat → WEBSOCK × List WSEvent
  | [] => (s, [])
  | b :: rest =>
      if b ≠ 0 then
        let s1 := if s.msg.length = WEBSOCK_MAX_MSG then s else { s with msg := s.msg ++ [b] }
        websock_on_recv s1 rest
      else
        let r := websock_process s
        let r2 := websock_on_recv r.1 rest
        (r2.1, r.2 ++ r2.2)

/- general lemmas about the telnet receive loop -/

theorem telnet_recv_append (w h : Nat) (xs ys : List Nat) :
    ∀ s : TELNET, telnet_recv w h s (xs ++ ys) =
      ((telnet_recv w h (telnet_recv w h s xs).1 ys).1,
        (telnet_recv w h s xs).2 ++ (telnet_recv w h (telnet_recv w h s xs).1 ys).2) := by
  induction xs with
  | nil => intro s; simp [telnet_recv]
  | cons b xs ih => intro s; simp [telnet_recv, ih, List.append_assoc]

theorem telnet_recv_chunks_flatten (w h : Nat) (chunks : List (List Nat)) :
    ∀ s : TELNET, telnet_recv_chunks w h s chunks = telnet_recv w h s chunks.flatten := by
  induction chunks with
  | nil => intro s; simp [telnet_recv_chunks, telnet_recv]
  | cons c rest ih =>
      intro s
      simp [telnet_recv_chunks, List.flatten_cons, telnet_recv_append, ih]

theorem flatten_map_singleton (l : List Nat) : (l.map (fun b => [b])).flatten = l := by
  induction l with
  | nil => simp
  | cons b l ih => simp [ih]

theorem telnet_recv_subfill (w h : Nat) (xs : List Nat) :
    ∀ s : TELNET, s.state = TELNET_SUB → (∀ x ∈ xs, x ≠ IAC) →
      s.sub_buf.length + xs.length ≤ TELNET_MAX_SUB →
      telnet_recv w h s xs = ({ s with sub_buf := s.sub_buf ++ xs }, []) := by
  induction xs with
  | nil => intro s hs _ _; simp [telnet_recv]
  | cons x xs ih =>
      intro s hs hx hlen
      have hxne : x ≠ IAC := hx x (by simp)
      simp only [List.length_cons] at hlen
      have hns : ¬ (s.sub_buf.length = TELNET_MAX_SUB) := by omega
      have hrec := ih { s with sub_buf := s.sub_buf ++ [x] } (by simp [hs])
        (fun y hy => hx y (by simp [hy]))
        (by simp only [List.length_append, List.length_cons, List.length_nil]; omega)
      simp only [hs] at hrec
      simp [telnet_recv, telnet_step, hs, hxne, hns, hrec, List.append_assoc]

theorem telnet_recv_textrun (w h : Nat) (xs : List Nat) :
    ∀ s : TELNET, s.state = TELNET_TEXT → (∀ x ∈ xs, x ≠ IAC) →
      telnet_recv w h s xs = (s, xs.map Event.display) := by
  induction xs with
  | nil => intro s hs _; simp [telnet_recv]
  | cons x xs ih =>
      intro s hs hx
      have hxne : x ≠ IAC := hx x (by simp)
      have hrec := ih s hs (fun y hy => hx y (by simp [hy]))
      simp [telnet_recv, telnet_step, hs, hxne, hrec]

/- claim theorems -/

/-- Claim C1: feeding the telnet Protocol Engine a byte sequence one
byte at a time and feeding it split into arbitrary chunks produce the
identical final parser state and the identical ordered sequence of
observable reactions (displayable bytes handed to the renderer,
transmitted acknowledgements, resize-report calls, sub-protocol
dispatches), because all parser state persists in the TELNET struct
across calls. -/
theorem C1_fragmentation_independence (w h : Nat) (s : TELNET) (chunks : List (List Nat)) :
    telnet_recv_chunks w h s chunks =
      telnet_recv_chunks w h s (chunks.flatten.map (fun b => [b])) := by
  rw [telnet_recv_chunks_flatten, telnet_recv_chunks_flatten, flatten_map_singleton]

/-- Claim C2 (refuting evaluation): escaping the payload [255, 97]
with telnet_send_esc yields [255, 255, 97], but feeding that back
through telnet_on_recv does not reproduce the original payload as
displayable bytes: the escaped IAC is displayed, yet the state is left
in TELNET_IAC (the IAC-IAC branch never resets it), so the following
byte 97 is mistaken for an unknown command and rendered as the
diagnostic placeholder instead of being displayed. -/
theorem C2_escape_roundtrip_bug :
    telnet_send_esc [255, 97] = [255, 255, 97] ∧
    (telnet_recv 80 24 telnetInit (telnet_send_esc [255, 97])).2 ≠
      [Event.display 255, Event.display 97] ∧
    (telnet_recv 80 24 telnetInit (telnet_send_esc [255, 97])).2 =
      [Event.display 255, Event.diag 97] ∧
    (telnet_recv 80 24 telnetInit [255, 255]).1.state = TELNET_IAC := by
  decide

/-- Claim C3 (refuting evaluation): editbuf_set with a 1025-byte text
truncates the stored bytes to the 1024-cell array (snprintf), yet
assigns size = pos = strlen(text) = 1025, so the invariant
pos ≤ size ≤ 1024 is broken right after the call. -/
theorem C3_editbuf_set_bug :
    (editbuf_set (List.replicate 1025 97) editbufInit).size = 1025 ∧
    (editbuf_set (List.replicate 1025 97) editbufInit).pos = 1025 ∧
    (editbuf_set (List.replicate 1025 97) editbufInit).buf.length = 1024 ∧
    ¬ ((editbuf_set (List.replicate 1025 97) editbufInit).size ≤ EDITBUF_MAX) := by
  refine ⟨by simp only [editbuf_set, List.length_replicate],
    by simp only [editbuf_set, List.length_replicate], ?_,
    by simp only [editbuf_set, List.length_replicate, EDITBUF_MAX]; decide⟩
  simp only [editbuf_set, editbufInit, overlay, EDITBUF_MAX, List.length_append,
    List.length_take, List.length_replicate, List.length_drop, List.length_cons,
    List.length_nil]
  omega

/-- Claim C5 (refuting evaluation): on the validated ZMP payload
"zmp.ping\0" (9 bytes, final byte NUL, first byte alphabetic), the
argument-collection loop of telnet_do_zmp collects offset 0 and then,
because its bound is c != bytes + len + 1 rather than c != bytes + len,
iterates once more with c = 9 = len, storing an argument pointer one
past the payload end and reading there (out-of-bounds read). -/
theorem C5_zmp_oob_read_bug :
    (2 ≤ ([122, 109, 112, 46, 112, 105, 110, 103, 0] : List Nat).length ∧
      ([122, 109, 112, 46, 112, 105, 110, 103, 0] : List Nat).getD 8 1 = 0 ∧
      isalpha (([122, 109, 112, 46, 112, 105, 110, 103, 0] : List Nat).getD 0 0) = true) ∧
    (telnet_do_zmp_args [122, 109, 112, 46, 112, 105, 110, 103, 0]).1 = [0, 9] ∧
    (telnet_do_zmp_args [122, 109, 112, 46, 112, 105, 110, 103, 0]).2 = true := by
  decide

/-- Claim C6: in the TELNET_DO state, option byte 31 (NAWS, the
window-size option) sets the window-size-reporting flag, transmits a
WILL 31 acknowledgement, immediately invokes the resize-report
callback with the current dimensions, and returns to TELNET_TEXT;
every other option byte returns to TELNET_TEXT with no flag change
and no transmission. -/
theorem C6_do_naws (w h : Nat) (s : TELNET) (b : Nat) (hs : s.state = TELNET_DO) :
    telnet_step w h s b =
      if b = TELOPT_NAWS then
        ({ s with state := TELNET_TEXT, naws := true },
          [Event.sendOpt WILL TELOPT_NAWS, Event.resize w h])
      else ({ s with state := TELNET_TEXT }, []) := by
  simp [telnet_step, hs]

/-- Witness for C6_do_naws at concrete inputs: option 31 and option 5
in the TELNET_DO state. -/
theorem C6_do_naws_witness :
    telnet_step 80 24 ⟨TELNET_DO, [], false, false, true⟩ 31 =
      (⟨TELNET_TEXT, [], false, true, true⟩, [Event.sendOpt 251 31, Event.resize 80 24]) ∧
    telnet_step 80 24 ⟨TELNET_DO, [], false, false, true⟩ 5 =
      (⟨TELNET_TEXT, [], false, false, true⟩, []) := by
  constructor
  · have h := C6_do_naws 80 24 ⟨TELNET_DO, [], false, false, true⟩ 31 rfl
    simpa [TELOPT_NAWS, WILL] using h
  · have h := C6_do_naws 80 24 ⟨TELNET_DO, [], false, false, true⟩ 5 rfl
    simpa [TELOPT_NAWS] using h

/-- Claim C4: a subnegotiation fed more than TELNET_MAX_SUB = 8192
payload bytes with no terminating IAC SE fills the buffer to exactly
8192 bytes, discards the overflowing byte, aborts to TELNET_TEXT
without delivering the buffer, and produces no sub-protocol dispatch
call (the remaining bytes are then ordinary text). -/
theorem C4_sub_overflow (w h : Nat) (a : List Nat) (b : Nat) (c : List Nat)
    (ha : a.length = TELNET_MAX_SUB) (ha2 : ∀ x ∈ a, x ≠ IAC) (hb : b ≠ IAC)
    (hc : ∀ x ∈ c, x ≠ IAC) :
    (telnet_recv w h telnetInit (255 :: 250 :: (a ++ b :: c))).1.state = TELNET_TEXT ∧
    (telnet_recv w h telnetInit (255 :: 250 :: (a ++ b :: c))).1.sub_buf.length = TELNET_MAX_SUB ∧
    (telnet_recv w h telnetInit (255 :: 250 :: (a ++ b :: c))).2 = c.map Event.display ∧
    ∀ p, Event.dispatch p ∉ (telnet_recv w h telnetInit (255 :: 250 :: (a ++ b :: c))).2 := by
  have h1 : telnet_recv w h telnetInit (255 :: 250 :: (a ++ b :: c)) =
      telnet_recv w h ⟨TELNET_SUB, [], false, false, true⟩ (a ++ b :: c) := by
    simp [telnet_recv, telnet_step, telnetInit, IAC, DO, DONT, WILL, WONT, SB]
  have h2 : telnet_recv w h (⟨TELNET_SUB, [], false, false, true⟩ : TELNET) a =
      (⟨TELNET_SUB, a, false, false, true⟩, []) := by
    have hsf := telnet_recv_subfill w h a ⟨TELNET_SUB, [], false, false, true⟩ rfl ha2
      (by simp [ha])
    simpa using hsf
  have h3 : telnet_step w h (⟨TELNET_SUB, a, false, false, true⟩ : TELNET) b =
      (⟨TELNET_TEXT, a, false, false, true⟩, []) := by
    simp [telnet_step, hb, ha]
  have h4 : telnet_recv w h (⟨TELNET_TEXT, a, false, false, true⟩ : TELNET) c =
      (⟨TELNET_TEXT, a, false, false, true⟩, c.map Event.display) :=
    telnet_recv_textrun w h c _ rfl hc
  have h5 : telnet_recv w h telnetInit (255 :: 250 :: (a ++ b :: c)) =
      (⟨TELNET_TEXT, a, false, false, true⟩, c.map Event.display) := by
    rw [h1, telnet_recv_append w h a (b :: c), h2]
    simp [telnet_recv, h3, h4]
  refine ⟨by rw [h5], by rw [h5]; exact ha, by rw [h5], ?_⟩
  intro p hp
  rw [h5] at hp
  simp at hp

/-- Witness for C4_sub_overflow: 8193 NUL bytes of subnegotiation
payload after IAC SB. -/
theorem C4_sub_overflow_witness :
    (telnet_recv 80 24 telnetInit
      (255 :: 250 :: (List.replicate TELNET_MAX_SUB 0 ++ 0 :: []))).1.state = TELNET_TEXT ∧
    (telnet_recv 80 24 telnetInit
      (255 :: 250 :: (List.replicate TELNET_MAX_SUB 0 ++ 0 :: []))).1.sub_buf.length = TELNET_MAX_SUB ∧
    (telnet_recv 80 24 telnetInit
      (255 :: 250 :: (List.replicate TELNET_MAX_SUB 0 ++ 0 :: []))).2 = [] ∧
    ∀ p, Event.dispatch p ∉ (telnet_recv 80 24 telnetInit
      (255 :: 250 :: (List.replicate TELNET_MAX_SUB 0 ++ 0 :: []))).2 := by
  have h := C4_sub_overflow 80 24 (List.replicate TELNET_MAX_SUB 0) 0 []
    (List.length_replicate _ _)
    (by intro x hx; have hx0 := List.eq_of_mem_replicate hx; subst hx0; decide)
    (by decide)
    (by intro x hx; cases hx)
  simpa using h

/-- Claim C7 (counterexample): from the default state (echo on), the
websock message consisting of tag 'p' and byte '1' turns local echo
OFF, and tag 'p' with byte '0' leaves it (turns it) ON — exactly the
opposite of the claimed assignment of '0' to off and '1' to on. -/
theorem C7_websock_p_cex :
    websockInit.echo = true ∧
    (websock_on_recv websockInit [112, 49, 0]).1.echo = false ∧
    (websock_on_recv websockInit [112, 48, 0]).1.echo = true := by
  decide

/-- Claim C7 (amended): a websock 'p' message of exactly two bytes
whose second byte is '1' switches local echo off (password mode on),
one whose second byte is '0' switches local echo on, and every other
message leaves the echo flag unchanged. -/
theorem C7_websock_p_amended (s : WEBSOCK) :
    (websock_process s).1.echo =
      if s.msg = [112, 49] then false
      else if s.msg = [112, 48] then true
      else s.echo := by
  by_cases h1 : s.msg = [112, 49]
  · simp [websock_process, h1]
  · by_cases h2 : s.msg = [112, 48]
    · simp [websock_process, h2]
    · rw [if_neg h1, if_neg h2]
      simp only [websock_process]
      split_ifs with ha hb hc hd he hf <;> try rfl
      · exfalso
        obtain ⟨u, v, huv⟩ := List.length_eq_two.mp he.1
        apply h1
        rw [huv] at hd he ⊢
        simp at hd he
        rw [hd, he]
      · exfalso
        obtain ⟨u, v, huv⟩ := List.length_eq_two.mp hf.1
        apply h2
        rw [huv] at hd hf ⊢
        simp at hd hf
        rw [hd, hf]

/-- Claim C8 (refuting evaluation): deleting forward in the buffer
"ab" with the cursor at position 1 (on the last character) removes
that character but also moves the cursor to 0 instead of leaving it at
1; and in the buffer "a" with the cursor at 0 the cursor decrement
wraps the size_t to 2^64 - 1. -/
theorem C8_del_cursor_bug :
    (editbuf_del ⟨[97, 98] ++ List.replicate 1022 0, 2, 1⟩).size = 1 ∧
    (editbuf_del ⟨[97, 98] ++ List.replicate 1022 0, 2, 1⟩).pos = 0 ∧
    (editbuf_del ⟨[97] ++ List.replicate 1023 0, 1, 0⟩).pos = 18446744073709551615 := by
  decide

/-- Claim C9 (counterexample): the escape sequence ESC [ 2 ; 2 J has
two parameters, yet the renderer still clears the whole display
region, because on_term_esc only tests esc_buf[0] == 2 and ignores the
parameter count. -/
theorem C9_clear_cex :
    (on_text_ansi termInit [27, 91, 50, 59, 50]).1.esc_cnt = 2 ∧
    (on_text_ansi termInit [27, 91, 50, 59, 50, 74]).2 = [TermEvent.clear] := by
  decide

/-- Claim C9 (amended): a final command byte 'J' clears the entire
display region if and only if the FIRST parameter equals 2, regardless
of how many parameters the sequence accumulated; in either case the
renderer returns to the plain-text state. -/
theorem C9_clear_amended (t : TERMINAL) (h : t.state = TERM_ESCRUN) :
    (on_text_ansi_step t 74).2 =
      (if t.esc_buf.getD 0 0 = 2 then [TermEvent.clear] else []) ∧
    (on_text_ansi_step t 74).1.state = TERM_ASCII := by
  constructor
  · simp [on_text_ansi_step, h, on_term_esc, isdigit]
    split_ifs <;> rfl
  · simp [on_text_ansi_step, h, on_term_esc, isdigit]

/-- Witness for C9_clear_amended in the TERM_ESCRUN state with first
parameter 2. -/
theorem C9_clear_amended_witness :
    (on_text_ansi_step ⟨TERM_ESCRUN, 2 :: List.replicate 15 0, 1, 9⟩ 74).2 = [TermEvent.clear] ∧
    (on_text_ansi_step ⟨TERM_ESCRUN, 2 :: List.replicate 15 0, 1, 9⟩ 74).1.state = TERM_ASCII := by
  have h := C9_clear_amended ⟨TERM_ESCRUN, 2 :: List.replicate 15 0, 1, 9⟩ rfl
  simpa using h

/-- Claim C10: a completed subnegotiation whose first byte is the ZMP
identifier 93 is dispatched only when the ZMP flag is set; with the
flag clear, telnet_do_subreq produces no reaction at all, the SE step
changes nothing but the protocol state, and the only transition that
ever sets the ZMP flag is receiving option byte 93 in the TELNET_WILL
state (entered by IAC WILL). -/
theorem C10_zmp_gating :
    (∀ s : TELNET, s.zmp = false → telnet_do_subreq s = []) ∧
    (∀ (s : TELNET) (p : List Nat), Event.dispatch p ∈ telnet_do_subreq s → s.zmp = true) ∧
    (∀ (w h : Nat) (s : TELNET), s.state = TELNET_SUBIAC →
        telnet_step w h s 240 =
          ({ s with state := TELNET_TEXT }, telnet_do_subreq { s with state := TELNET_TEXT })) ∧
    (∀ (w h : Nat) (s : TELNET) (b : Nat), (telnet_step w h s b).1.zmp = true →
        s.zmp = true ∨ (s.state = TELNET_WILL ∧ b = 93)) := by
  refine ⟨?_, ?_, ?_, ?_⟩
  · intro s hz
    simp [telnet_do_subreq, hz]
  · intro s p hmem
    by_cases hz : s.zmp = true
    · exact hz
    · exfalso
      have hz2 : s.zmp = false := by simpa using hz
      simp [telnet_do_subreq, hz2] at hmem
  · intro w h s hs
    simp [telnet_step, hs, SE, IAC]
  · intro w h s b hz
    obtain ⟨st, sb, z, n, e⟩ := s
    cases st <;> simp only [telnet_step] at hz <;> (try split_ifs at hz) <;> simp_all

/-- Witness for C10_zmp_gating: a well-formed ZMP frame "zmp.ping\0"
in the buffer with the ZMP flag clear yields no dispatch; the SE step
applies at a concrete TELNET_SUBIAC state; the flag-provenance part at
a concrete WILL 93 step. -/
theorem C10_zmp_gating_witness :
    telnet_do_subreq ⟨TELNET_TEXT, [93, 122, 109, 112, 46, 112, 105, 110, 103, 0],
      false, false, true⟩ = [] ∧
    telnet_step 80 24 ⟨TELNET_SUBIAC, [93, 122, 109, 112, 46, 112, 105, 110, 103, 0],
      false, false, true⟩ 240 =
      (⟨TELNET_TEXT, [93, 122, 109, 112, 46, 112, 105, 110, 103, 0], false, false, true⟩,
        telnet_do_subreq ⟨TELNET_TEXT, [93, 122, 109, 112, 46, 112, 105, 110, 103, 0],
          false, false, true⟩) ∧
    ((false : Bool) = true ∨ ((TELNET_WILL : telnet_state_t) = TELNET_WILL ∧ (93 : Nat) = 93)) := by
  refine ⟨?_, ?_, ?_⟩
  · exact C10_zmp_gating.1 _ rfl
  · exact C10_zmp_gating.2.2.1 80 24 _ rfl
  · exact C10_zmp_gating.2.2.2 80 24 ⟨TELNET_WILL, [], false, false, true⟩ 93 (by decide)
